import Mathlib

set_option linter.unusedVariables false

/-!
Shallow embedding of the VulkanEngine renderer core
(`src/VulkanEngine.cpp`, `src/VulkanEngine.hpp`).

The embedding covers:
* surface negotiation: `chooseSwapSurfaceFormat`, `chooseSwapPresentMode`,
  `chooseSwapExtent`, and the swapchain image-count computation of
  `createSwapChain`;
* per-frame synchronization: the sizes of the synchronization-object arrays
  built by `initSyncObjects`, and a small-step model of the
  `drawFrame` loop interleaved with asynchronous GPU completion;
* the shutdown sequence of `cleanup` as an explicit event list;
* the `immediateSubmit` upload primitive as an explicit event list.

Machine integers (`uint32_t`) are modelled as `Nat` with an explicit
`% 4294967296` where the source can wrap.
-/

namespace VulkanEngine

/-- The reserved maximum of a 32-bit unsigned integer,
`std::numeric_limits of uint32_t ... max()` (VulkanEngine.cpp:340). -/
def uint32Max : Nat := 4294967295

/-- Modulus of 32-bit unsigned arithmetic. -/
def uint32Mod : Nat := 4294967296

/-- `vk::Extent2D`: a pair of `uint32_t` axis sizes. -/
structure Extent2D where
  width : Nat
  height : Nat
deriving DecidableEq, Repr

/-- The fields of `vk::SurfaceCapabilitiesKHR` that the engine reads
(VulkanEngine.cpp:338-375). -/
structure SurfaceCapabilitiesKHR where
  minImageCount : Nat
  maxImageCount : Nat
  currentExtent : Extent2D
  minImageExtent : Extent2D
  maxImageExtent : Extent2D
deriving DecidableEq, Repr

/-- The `vk::Format` values the engine mentions, plus a constructor for all
remaining format codes so that format lists can be arbitrary. -/
inductive Format where
  | b8g8r8a8Srgb
  | r8g8b8a8Srgb
  | d32Sfloat
  | undefinedFormat
  | otherFormat (code : Nat)
deriving DecidableEq, Repr

/-- `vk::ColorSpaceKHR`: the value the engine tests for, plus the rest. -/
inductive ColorSpaceKHR where
  | srgbNonlinear
  | otherColorSpace (code : Nat)
deriving DecidableEq, Repr

/-- `vk::SurfaceFormatKHR`: a pixel format together with a color space. -/
structure SurfaceFormatKHR where
  format : Format
  colorSpace : ColorSpaceKHR
deriving DecidableEq, Repr

/-- `vk::PresentModeKHR`: the named values plus the rest. -/
inductive PresentModeKHR where
  | immediateMode
  | mailbox
  | fifo
  | fifoRelaxed
  | otherPresentMode (code : Nat)
deriving DecidableEq, Repr

/-- The predicate of the loop in `chooseSwapSurfaceFormat`
(VulkanEngine.cpp:314-315): 8-bit BGRA sRGB format with non-linear sRGB
color space. -/
def isPreferredSurfaceFormat (f : SurfaceFormatKHR) : Bool :=
  f.format == Format.b8g8r8a8Srgb && f.colorSpace == ColorSpaceKHR.srgbNonlinear

/-- `VulkanEngine::chooseSwapSurfaceFormat` (VulkanEngine.cpp:309-322): return
the first available format satisfying `isPreferredSurfaceFormat`, else the
first element of the list.  The C++ indexes `availableFormats[0]`, which is
defined only for a non-empty list; the embedding returns an `Option` that is
`none` exactly in the undefined empty case. -/
def chooseSwapSurfaceFormat (availableFormats : List SurfaceFormatKHR) :
    Option SurfaceFormatKHR :=
  match availableFormats.find? isPreferredSurfaceFormat with
  | some f => some f
  | none => availableFormats.head?

/-- `VulkanEngine::chooseSwapPresentMode` (VulkanEngine.cpp:324-336): return
the first available mode equal to `eMailbox`, else `eFifo`. -/
def chooseSwapPresentMode (availablePresentModes : List PresentModeKHR) :
    PresentModeKHR :=
  match availablePresentModes.find? (fun m => m == PresentModeKHR.mailbox) with
  | some m => m
  | none => PresentModeKHR.fifo

/-- `std::clamp(v, lo, hi)`: `lo` if `v < lo`, `hi` if `hi < v`, else `v`. -/
def stdClamp (v lo hi : Nat) : Nat :=
  if v < lo then lo else if hi < v then hi else v

/-- `VulkanEngine::chooseSwapExtent` (VulkanEngine.cpp:338-358): if the
reported current extent does not carry the sentinel width `uint32Max`, return
it verbatim; otherwise clamp the window framebuffer size per axis into the
reported extent bounds.  `fbWidth`/`fbHeight` are the values produced by
`window_->getFrameBufferSize`. -/
def chooseSwapExtent (capabilities : SurfaceCapabilitiesKHR)
    (fbWidth fbHeight : Nat) : Extent2D :=
  if capabilities.currentExtent.width ≠ uint32Max then
    capabilities.currentExtent
  else
    { width := stdClamp fbWidth capabilities.minImageExtent.width
        capabilities.maxImageExtent.width
      height := stdClamp fbHeight capabilities.minImageExtent.height
        capabilities.maxImageExtent.height }

/-- The image-count computation of `VulkanEngine::createSwapChain`
(VulkanEngine.cpp:369-375): `imageCount = minImageCount + 1` in `uint32_t`
arithmetic, lowered to `maxImageCount` when `maxImageCount > 0` and
`imageCount > maxImageCount`. -/
def swapChainImageCount (caps : SurfaceCapabilitiesKHR) : Nat :=
  let imageCount := (caps.minImageCount + 1) % uint32Mod
  if 0 < caps.maxImageCount ∧ caps.maxImageCount < imageCount then
    caps.maxImageCount
  else
    imageCount

/-- `VulkanEngine::MAX_FRAMES_IN_FLIGHT` (VulkanEngine.hpp). -/
def MAX_FRAMES_IN_FLIGHT : Nat := 2

/-- The synchronization objects created by `VulkanEngine::initSyncObjects`
(VulkanEngine.cpp:600-641), with handles modelled as distinct indices. -/
structure SyncObjects where
  commandBuffers : List Nat
  imageAvailableSemaphores : List Nat
  renderFinishedSemaphores : List Nat
  inFlightFences : List Nat
deriving DecidableEq, Repr

/-- `VulkanEngine::initSyncObjects` (VulkanEngine.cpp:609-632): command
buffers, image-available semaphores and in-flight fences are allocated per
frame slot (`MAX_FRAMES_IN_FLIGHT` many); render-finished semaphores are
allocated per swapchain image (`swapChainImages_.size()` many). -/
def initSyncObjects (numSwapChainImages : Nat) : SyncObjects where
  commandBuffers := List.range MAX_FRAMES_IN_FLIGHT
  imageAvailableSemaphores := List.range MAX_FRAMES_IN_FLIGHT
  renderFinishedSemaphores := List.range numSwapChainImages
  inFlightFences := List.range MAX_FRAMES_IN_FLIGHT

/-- A reference to a semaphore of the engine: either
`imageAvailableSemaphores_[i]` or `renderFinishedSemaphores_[i]`. -/
inductive SemaphoreRef where
  | imageAvailable (i : Nat)
  | renderFinished (i : Nat)
deriving DecidableEq, Repr

/-- The signal semaphore of the `vk::SubmitInfo` built by `drawFrame`
(VulkanEngine.cpp:657,762-763): `renderFinishedSemaphores_[imageIndex]`,
indexed by the acquired image index, not by the frame slot. -/
def drawFrameSubmitSignalSemaphore (currentFrame imageIndex : Nat) :
    SemaphoreRef :=
  SemaphoreRef.renderFinished imageIndex

/-- The wait semaphore of the same `vk::SubmitInfo` (VulkanEngine.cpp:646,762):
`imageAvailableSemaphores_[currentFrame_]`, indexed by the frame slot. -/
def drawFrameSubmitWaitSemaphore (currentFrame imageIndex : Nat) :
    SemaphoreRef :=
  SemaphoreRef.imageAvailable currentFrame

/-- The wait semaphore of the `vk::PresentInfoKHR` built by `drawFrame`
(VulkanEngine.cpp:767): `renderFinishedSemaphores_[imageIndex]`. -/
def drawFramePresentWaitSemaphore (currentFrame imageIndex : Nat) :
    SemaphoreRef :=
  SemaphoreRef.renderFinished imageIndex

/-- The `vk::Result` values relevant to acquisition and presentation. -/
inductive VkResult where
  | success
  | suboptimalKHR
  | errorOutOfDateKHR
  | otherResult (code : Int)
deriving DecidableEq, Repr

/-- The pair returned by `device_.acquireNextImageKHR`
(VulkanEngine.cpp:652-653): a result code and an image index. -/
structure AcquireResult where
  result : VkResult
  value : Nat
deriving DecidableEq, Repr

/-- VulkanEngine.cpp:655: `uint32_t imageIndex = acquireResult.value;` —
`drawFrame` reads the acquired index without inspecting the result code
(there is no branch on `acquireResult.result` anywhere in `drawFrame`). -/
def drawFrameImageIndex (acquireResult : AcquireResult) : Nat :=
  acquireResult.value

/-- The host-side operations a single `drawFrame` call can perform, plus
`recreateSwapChain`, the operation the specification's failure-handling
protocol calls for (the engine defines no swapchain-recreation routine). -/
inductive HostOp where
  | waitFence
  | resetFence
  | acquireImage
  | resetCommandBuffer
  | recordCommands
  | submitToQueue
  | presentImage
  | advanceFrame
  | recreateSwapChain
deriving DecidableEq, Repr

/-- The straight-line operation sequence of `VulkanEngine::drawFrame`
(VulkanEngine.cpp:643-772), identical for every acquisition result code. -/
def drawFrameOps : List HostOp :=
  [HostOp.waitFence, HostOp.resetFence, HostOp.acquireImage,
   HostOp.resetCommandBuffer, HostOp.recordCommands, HostOp.submitToQueue,
   HostOp.presentImage, HostOp.advanceFrame]

/-- State of the frame loop: the current frame slot (`currentFrame_`), the
program position inside `drawFrame` (`step`, an index into `drawFrameOps`),
the most recently acquired image index, and per-slot fence state:
`fenceSignaled` models whether `inFlightFences_[k]` is signaled, and
`pendingSubmit` whether a submission armed on `inFlightFences_[k]` has not yet
completed on the GPU. -/
structure FrameLoopState where
  slot : Nat
  step : Nat
  imageIndex : Nat
  fenceSignaled : List Bool
  pendingSubmit : List Bool
deriving DecidableEq, Repr

/-- Initial state: `currentFrame_ = 0` (VulkanEngine.hpp) and every fence
created with `vk::FenceCreateFlagBits::eSignaled` (VulkanEngine.cpp:618,626).
No submission is pending. -/
def initFrameLoopState : FrameLoopState where
  slot := 0
  step := 0
  imageIndex := 0
  fenceSignaled := List.replicate MAX_FRAMES_IN_FLIGHT true
  pendingSubmit := List.replicate MAX_FRAMES_IN_FLIGHT false

/-- Small-step semantics of the render loop of `drawFrame`
(VulkanEngine.cpp:643-772) interleaved with asynchronous GPU completion.
Host steps follow the source order: wait on `inFlightFences_[currentFrame_]`
(enabled only when that fence is signaled, line 649), reset that fence
(line 650), acquire an image index below the swapchain image count
(lines 652-655), reset and re-record `commandBuffers_[currentFrame_]`
(lines 659-758), submit arming the same fence (line 765), present (line 769),
and advance `currentFrame_` modulo `MAX_FRAMES_IN_FLIGHT` (line 771).
`gpuComplete` models the GPU finishing a pending submission at any time,
signaling that slot's fence. -/
inductive FrameStep (numImages : Nat) : FrameLoopState → FrameLoopState → Prop where
  | waitFence (s : FrameLoopState) (hstep : s.step = 0)
      (hsig : s.fenceSignaled.getD s.slot false = true) :
      FrameStep numImages s { s with step := 1 }
  | resetFence (s : FrameLoopState) (hstep : s.step = 1) :
      FrameStep numImages s
        { s with step := 2, fenceSignaled := s.fenceSignaled.set s.slot false }
  | acquireImage (s : FrameLoopState) (hstep : s.step = 2)
      (ii : Nat) (hii : ii < numImages) :
      FrameStep numImages s { s with step := 3, imageIndex := ii }
  | resetCommandBuffer (s : FrameLoopState) (hstep : s.step = 3) :
      FrameStep numImages s { s with step := 4 }
  | recordCommands (s : FrameLoopState) (hstep : s.step = 4) :
      FrameStep numImages s { s with step := 5 }
  | submitToQueue (s : FrameLoopState) (hstep : s.step = 5) :
      FrameStep numImages s
        { s with step := 6, pendingSubmit := s.pendingSubmit.set s.slot true }
  | presentImage (s : FrameLoopState) (hstep : s.step = 6) :
      FrameStep numImages s { s with step := 7 }
  | advanceFrame (s : FrameLoopState) (hstep : s.step = 7) :
      FrameStep numImages s
        { s with step := 0, slot := (s.slot + 1) % MAX_FRAMES_IN_FLIGHT }
  | gpuComplete (s : FrameLoopState) (k : Nat)
      (hpend : s.pendingSubmit.getD k false = true) :
      FrameStep numImages s
        { s with pendingSubmit := s.pendingSubmit.set k false,
                 fenceSignaled := s.fenceSignaled.set k true }

/-- States reachable from the freshly initialized engine by any interleaving
of host steps and GPU completions. -/
inductive FrameReachable (numImages : Nat) : FrameLoopState → Prop where
  | init : FrameReachable numImages initFrameLoopState
  | step {s t : FrameLoopState} (hr : FrameReachable numImages s)
      (hs : FrameStep numImages s t) : FrameReachable numImages t

/-- Inductive invariant of the frame loop: array lengths and slot index are
in range; a pending submission implies an unsignaled fence; between the fence
wait and the submit of the running `drawFrame` the current slot has no
pending submission (and, once the fence is reset, an unsignaled fence); and
every slot that is not mid-frame has its fence signaled or a pending
submission that will signal it. -/
def FrameInv (s : FrameLoopState) : Prop :=
  s.fenceSignaled.length = MAX_FRAMES_IN_FLIGHT ∧
  s.pendingSubmit.length = MAX_FRAMES_IN_FLIGHT ∧
  s.slot < MAX_FRAMES_IN_FLIGHT ∧
  (∀ k : Nat, s.pendingSubmit.getD k false = true →
    s.fenceSignaled.getD k false = false) ∧
  (1 ≤ s.step → s.step ≤ 5 → s.pendingSubmit.getD s.slot false = false) ∧
  (2 ≤ s.step → s.step ≤ 5 → s.fenceSignaled.getD s.slot false = false) ∧
  (∀ k : Nat, k < MAX_FRAMES_IN_FLIGHT → (k = s.slot → s.step < 2 ∨ 5 < s.step) →
    s.fenceSignaled.getD k false = true ∨ s.pendingSubmit.getD k false = true)

/-- The destruction events of `VulkanEngine::cleanup`
(VulkanEngine.cpp:24-86). -/
inductive CleanupOp where
  | deviceWaitIdle
  | destroyRenderFinishedSemaphore (i : Nat)
  | destroyImageAvailableSemaphore (i : Nat)
  | destroyFence (i : Nat)
  | destroyCommandPool
  | destroyPipeline
  | destroyPipelineLayout
  | destroyDescriptorPool
  | destroyDescriptorSetLayout
  | destroyDepthImageView
  | destroyDepthImage
  | destroyTextureImageView
  | destroyTextureImage
  | destroySampler
  | destroySwapchainImageView (i : Nat)
  | destroySwapchain
  | destroyMeshVertexBuffer (i : Nat)
  | destroyMeshIndexBuffer (i : Nat)
  | destroyAllocator
  | destroyDevice
  | destroySurface
  | destroyInstance
deriving DecidableEq, Repr

/-- The event sequence of `VulkanEngine::cleanup` (VulkanEngine.cpp:24-86) on
the normal path where device, instance and surface are all non-null, for an
engine holding `numSwapChainImages` swapchain images and `numMeshes` meshes:
wait for device idle (line 30); destroy the per-image render-finished
semaphores (32-35); per-slot image-available semaphores and fences (37-41);
command pool (42); pipeline (44) and pipeline layout (45); descriptor pool
(47) and descriptor set layout (48); depth image view and image (50-51);
texture image view and image (53-54); sampler (56); swapchain image views
(58-61); the swapchain (63); each mesh's vertex and index buffer (65-70); the
allocator (72); the device (74); the surface (79); the instance (84). -/
def cleanupOps (numSwapChainImages numMeshes : Nat) : List CleanupOp :=
  [CleanupOp.deviceWaitIdle] ++
  ((List.range numSwapChainImages).map CleanupOp.destroyRenderFinishedSemaphore ++
  ((List.range MAX_FRAMES_IN_FLIGHT).flatMap
    (fun i => [CleanupOp.destroyImageAvailableSemaphore i, CleanupOp.destroyFence i]) ++
  ([CleanupOp.destroyCommandPool] ++
  ([CleanupOp.destroyPipeline, CleanupOp.destroyPipelineLayout] ++
  ([CleanupOp.destroyDescriptorPool, CleanupOp.destroyDescriptorSetLayout] ++
  ([CleanupOp.destroyDepthImageView, CleanupOp.destroyDepthImage,
    CleanupOp.destroyTextureImageView, CleanupOp.destroyTextureImage,
    CleanupOp.destroySampler] ++
  ((List.range numSwapChainImages).map CleanupOp.destroySwapchainImageView ++
  ([CleanupOp.destroySwapchain] ++
  ((List.range numMeshes).flatMap
    (fun i => [CleanupOp.destroyMeshVertexBuffer i, CleanupOp.destroyMeshIndexBuffer i]) ++
  ([CleanupOp.destroyAllocator] ++
  ([CleanupOp.destroyDevice] ++
  ([CleanupOp.destroySurface] ++
  [CleanupOp.destroyInstance]))))))))))))

/-- Element `a` occurs strictly before element `b` somewhere in `l`: the list
splits into a part containing `a` followed by a part containing `b`. -/
def occursBefore {α : Type} (l : List α) (a b : α) : Prop :=
  ∃ l1 l2 : List α, l = l1 ++ l2 ∧ a ∈ l1 ∧ b ∈ l2

/-- Command pools owned by the engine: `VulkanEngine.hpp` declares exactly one
`vk::CommandPool` member, `commandPool_`. -/
inductive EnginePool where
  | commandPool
deriving DecidableEq, Repr

/-- `initSyncObjects` (VulkanEngine.cpp:604-612) allocates the per-frame
command buffers from `commandPool_`. -/
def frameCommandBuffersPool : EnginePool := EnginePool.commandPool

/-- `immediateSubmit` (VulkanEngine.cpp:1075) allocates its transient command
buffer from `commandPool_` — the same pool as the per-frame command
buffers. -/
def immediateSubmitPool : EnginePool := EnginePool.commandPool

/-- The operations of `VulkanEngine::immediateSubmit`. -/
inductive UploadOp where
  | allocateCommandBuffer (pool : EnginePool)
  | beginOneTimeSubmit
  | runCallerCommands
  | endCommandBuffer
  | submitToGraphicsQueue
  | graphicsQueueWaitIdle
  | freeCommandBuffer (pool : EnginePool)
deriving DecidableEq, Repr

/-- The straight-line event sequence of `VulkanEngine::immediateSubmit`
(VulkanEngine.cpp:1073-1091): allocate one primary command buffer from
`commandPool_` (1075-1077), begin it with `eOneTimeSubmit` (1079-1080), run
the caller-supplied commands (1082), end it (1083), submit it to
`graphicsQueue_` (1085-1087), block in `graphicsQueue_.waitIdle()` (1088),
and free the command buffer back to `commandPool_` (1090). -/
def immediateSubmitOps : List UploadOp :=
  [UploadOp.allocateCommandBuffer immediateSubmitPool,
   UploadOp.beginOneTimeSubmit,
   UploadOp.runCallerCommands,
   UploadOp.endCommandBuffer,
   UploadOp.submitToGraphicsQueue,
   UploadOp.graphicsQueueWaitIdle,
   UploadOp.freeCommandBuffer immediateSubmitPool]

end VulkanEngine

namespace VulkanEngine

/-- Reading a list at an index just set, within bounds, yields the new value. -/
theorem getD_set_self {α : Type} (l : List α) (i : Nat) (x d : α)
    (h : i < l.length) : (l.set i x).getD i d = x := by
  induction l generalizing i with
  | nil => simp at h
  | cons a t ih =>
    cases i with
    | zero => rfl
    | succ n => exact ih n (Nat.lt_of_succ_lt_succ h)

/-- Reading a list at an index other than the one just set is unchanged. -/
theorem getD_set_of_ne {α : Type} (l : List α) (i k : Nat) (x d : α)
    (h : i ≠ k) : (l.set i x).getD k d = l.getD k d := by
  induction l generalizing i k with
  | nil => rfl
  | cons a t ih =>
    cases i with
    | zero =>
      cases k with
      | zero => exact absurd rfl h
      | succ m => rfl
    | succ n =>
      cases k with
      | zero => rfl
      | succ m => exact ih n m (fun he => h (by rw [he]))

/-- Reading a replicated list with the replicated value as default always
yields that value. -/
theorem getD_replicate_self {α : Type} (n k : Nat) (x : α) :
    (List.replicate n x).getD k x = x := by
  induction n generalizing k with
  | zero => cases k <;> rfl
  | succ m ih =>
    cases k with
    | zero => rfl
    | succ j => exact ih j

/-- `stdClamp` lands in the interval when the interval is non-empty. -/
theorem stdClamp_mem (v lo hi : Nat) (h : lo ≤ hi) :
    lo ≤ stdClamp v lo hi ∧ stdClamp v lo hi ≤ hi := by
  unfold stdClamp
  split_ifs <;> omega

/-- Claim C4: for surface capabilities whose `minImageCount + 1` does not wrap
32-bit arithmetic, the swapchain image count requested by `createSwapChain`
equals `minImageCount + 1` when `maxImageCount = 0` (unbounded) or
`minImageCount + 1 ≤ maxImageCount`, and equals `maxImageCount` otherwise. -/
theorem swapChainImageCount_spec (caps : SurfaceCapabilitiesKHR)
    (hmin : caps.minImageCount + 1 < uint32Mod) :
    swapChainImageCount caps =
      if caps.maxImageCount = 0 ∨ caps.minImageCount + 1 ≤ caps.maxImageCount
      then caps.minImageCount + 1
      else caps.maxImageCount := by
  simp only [swapChainImageCount, Nat.mod_eq_of_lt hmin]
  split_ifs <;> omega

/-- Witness for C4: `minImageCount = 2, maxImageCount = 3` yields 3, and
`minImageCount = 2, maxImageCount = 0` yields 3. -/
theorem swapChainImageCount_spec_witness :
    swapChainImageCount ⟨2, 3, ⟨0, 0⟩, ⟨0, 0⟩, ⟨0, 0⟩⟩ = 3 ∧
    swapChainImageCount ⟨2, 0, ⟨0, 0⟩, ⟨0, 0⟩, ⟨0, 0⟩⟩ = 3 := by
  have h1 := swapChainImageCount_spec ⟨2, 3, ⟨0, 0⟩, ⟨0, 0⟩, ⟨0, 0⟩⟩ (by decide)
  have h2 := swapChainImageCount_spec ⟨2, 0, ⟨0, 0⟩, ⟨0, 0⟩, ⟨0, 0⟩⟩ (by decide)
  norm_num at h1 h2
  exact ⟨h1, h2⟩

/-- Claim C5: for every non-empty format list, `chooseSwapSurfaceFormat`
returns an available entry with 8-bit BGRA sRGB format and non-linear sRGB
color space whenever the list contains one, returns the list's first entry
when it contains none, and always returns some entry. -/
theorem chooseSwapSurfaceFormat_spec (availableFormats : List SurfaceFormatKHR)
    (hne : availableFormats ≠ []) :
    ((∃ f ∈ availableFormats, isPreferredSurfaceFormat f = true) →
      ∃ f, chooseSwapSurfaceFormat availableFormats = some f ∧
        f ∈ availableFormats ∧ isPreferredSurfaceFormat f = true) ∧
    ((∀ f ∈ availableFormats, isPreferredSurfaceFormat f = false) →
      chooseSwapSurfaceFormat availableFormats = availableFormats.head?) ∧
    (chooseSwapSurfaceFormat availableFormats).isSome = true := by
  unfold chooseSwapSurfaceFormat
  cases hfind : availableFormats.find? isPreferredSurfaceFormat with
  | some f =>
    refine ⟨fun _ => ⟨f, rfl, List.mem_of_find?_eq_some hfind,
      List.find?_some hfind⟩, fun hall => ?_, rfl⟩
    have := hall f (List.mem_of_find?_eq_some hfind)
    have := List.find?_some hfind
    simp_all
  | none =>
    refine ⟨fun hex => ?_, fun _ => rfl, ?_⟩
    · obtain ⟨f, hmem, hpref⟩ := hex
      have := List.find?_eq_none.mp hfind f hmem
      simp_all
    · cases availableFormats with
      | nil => exact absurd rfl hne
      | cons a t => rfl

/-- Witness for C5: a list whose second entry is the preferred BGRA sRGB
format yields that entry; a list with no preferred entry yields its head. -/
theorem chooseSwapSurfaceFormat_spec_witness :
    (∃ f, chooseSwapSurfaceFormat
        [⟨Format.r8g8b8a8Srgb, ColorSpaceKHR.srgbNonlinear⟩,
         ⟨Format.b8g8r8a8Srgb, ColorSpaceKHR.srgbNonlinear⟩] = some f ∧
      f ∈ [⟨Format.r8g8b8a8Srgb, ColorSpaceKHR.srgbNonlinear⟩,
           ⟨Format.b8g8r8a8Srgb, ColorSpaceKHR.srgbNonlinear⟩] ∧
      isPreferredSurfaceFormat f = true) ∧
    chooseSwapSurfaceFormat [⟨Format.r8g8b8a8Srgb, ColorSpaceKHR.srgbNonlinear⟩] =
      List.head? [⟨Format.r8g8b8a8Srgb, ColorSpaceKHR.srgbNonlinear⟩] :=
  ⟨(chooseSwapSurfaceFormat_spec _ (by decide)).1 (by decide),
   (chooseSwapSurfaceFormat_spec _ (by decide)).2.1 (by decide)⟩

/-- Claim C6: for every present-mode list, in any order,
`chooseSwapPresentMode` returns `eMailbox` when the list contains it and the
`eFifo` fallback otherwise. -/
theorem chooseSwapPresentMode_spec (availablePresentModes : List PresentModeKHR) :
    (PresentModeKHR.mailbox ∈ availablePresentModes →
      chooseSwapPresentMode availablePresentModes = PresentModeKHR.mailbox) ∧
    (PresentModeKHR.mailbox ∉ availablePresentModes →
      chooseSwapPresentMode availablePresentModes = PresentModeKHR.fifo) := by
  unfold chooseSwapPresentMode
  cases hfind : availablePresentModes.find? (fun m => m == PresentModeKHR.mailbox) with
  | some m =>
    have hm : m = PresentModeKHR.mailbox := by
      have := List.find?_some hfind
      simpa using this
    subst hm
    exact ⟨fun _ => rfl,
      fun hn => absurd (List.mem_of_find?_eq_some hfind) hn⟩
  | none =>
    refine ⟨fun hmem => ?_, fun _ => rfl⟩
    have := List.find?_eq_none.mp hfind _ hmem
    simp_all

/-- Witness for C6: a list containing mailbox (not first) yields mailbox; a
list without mailbox yields fifo. -/
theorem chooseSwapPresentMode_spec_witness :
    chooseSwapPresentMode [PresentModeKHR.fifo, PresentModeKHR.mailbox] =
      PresentModeKHR.mailbox ∧
    chooseSwapPresentMode [PresentModeKHR.fifoRelaxed, PresentModeKHR.fifo] =
      PresentModeKHR.fifo :=
  ⟨(chooseSwapPresentMode_spec _).1 (by decide),
   (chooseSwapPresentMode_spec _).2 (by decide)⟩

/-- Claim C7: `chooseSwapExtent` returns the reported current extent verbatim
unless its width carries the 32-bit sentinel value, in which case it returns
the framebuffer size with each axis independently clamped into
`[minImageExtent, maxImageExtent]` (and the result lies in those bounds
whenever they are non-empty). -/
theorem chooseSwapExtent_spec (capabilities : SurfaceCapabilitiesKHR)
    (fbWidth fbHeight : Nat) :
    (capabilities.currentExtent.width ≠ uint32Max →
      chooseSwapExtent capabilities fbWidth fbHeight = capabilities.currentExtent) ∧
    (capabilities.currentExtent.width = uint32Max →
      chooseSwapExtent capabilities fbWidth fbHeight =
        ⟨stdClamp fbWidth capabilities.minImageExtent.width
           capabilities.maxImageExtent.width,
         stdClamp fbHeight capabilities.minImageExtent.height
           capabilities.maxImageExtent.height⟩ ∧
      (capabilities.minImageExtent.width ≤ capabilities.maxImageExtent.width →
        capabilities.minImageExtent.width ≤
            (chooseSwapExtent capabilities fbWidth fbHeight).width ∧
          (chooseSwapExtent capabilities fbWidth fbHeight).width ≤
            capabilities.maxImageExtent.width) ∧
      (capabilities.minImageExtent.height ≤ capabilities.maxImageExtent.height →
        capabilities.minImageExtent.height ≤
            (chooseSwapExtent capabilities fbWidth fbHeight).height ∧
          (chooseSwapExtent capabilities fbWidth fbHeight).height ≤
            capabilities.maxImageExtent.height)) := by
  by_cases h : capabilities.currentExtent.width = uint32Max
  · have heq : chooseSwapExtent capabilities fbWidth fbHeight =
        ⟨stdClamp fbWidth capabilities.minImageExtent.width
           capabilities.maxImageExtent.width,
         stdClamp fbHeight capabilities.minImageExtent.height
           capabilities.maxImageExtent.height⟩ := by
      unfold chooseSwapExtent
      rw [if_neg (by simp [h])]
    refine ⟨fun hne => absurd h hne, fun _ => ⟨heq, fun hwb => ?_, fun hhb => ?_⟩⟩
    · rw [heq]
      exact stdClamp_mem _ _ _ hwb
    · rw [heq]
      exact stdClamp_mem _ _ _ hhb
  · have heq : chooseSwapExtent capabilities fbWidth fbHeight =
        capabilities.currentExtent := by
      unfold chooseSwapExtent
      rw [if_pos h]
    exact ⟨fun _ => heq, fun hs => absurd hs h⟩

/-- Witness for C7: capabilities with the sentinel current extent clamp the
framebuffer size; capabilities with a definite current extent return it. -/
theorem chooseSwapExtent_spec_witness :
    chooseSwapExtent ⟨2, 3, ⟨uint32Max, uint32Max⟩, ⟨100, 100⟩, ⟨200, 200⟩⟩ 50 300 =
      ⟨stdClamp 50 100 200, stdClamp 300 100 200⟩ ∧
    chooseSwapExtent ⟨2, 3, ⟨800, 600⟩, ⟨100, 100⟩, ⟨200, 200⟩⟩ 50 300 = ⟨800, 600⟩ :=
  ⟨((chooseSwapExtent_spec ⟨2, 3, ⟨uint32Max, uint32Max⟩, ⟨100, 100⟩, ⟨200, 200⟩⟩
      50 300).2 rfl).1,
   (chooseSwapExtent_spec ⟨2, 3, ⟨800, 600⟩, ⟨100, 100⟩, ⟨200, 200⟩⟩ 50 300).1
     (by decide)⟩

/-- Reading a list past its length yields the default. -/
theorem getD_eq_default_of_le {α : Type} (l : List α) (i : Nat) (d : α)
    (h : l.length ≤ i) : l.getD i d = d := by
  induction l generalizing i with
  | nil => cases i <;> rfl
  | cons a t ih =>
    cases i with
    | zero => simp at h
    | succ n => exact ih n (Nat.le_of_succ_le_succ h)

/-- The frame-loop invariant holds in the initial state. -/
theorem frameInv_init : FrameInv initFrameLoopState := by
  refine ⟨rfl, rfl, by decide, ?_, ?_, ?_, ?_⟩
  · intro k hk
    rw [show initFrameLoopState.pendingSubmit =
        List.replicate MAX_FRAMES_IN_FLIGHT false from rfl,
      getD_replicate_self] at hk
    exact absurd hk (by decide)
  · intro h1 _
    exact absurd h1 (by decide)
  · intro h2 _
    exact absurd h2 (by decide)
  · intro k hk hg
    left
    have hk2 : k < 2 := hk
    interval_cases k <;> rfl

/-- Every step of the frame loop preserves the invariant. -/
theorem frameInv_step {numImages : Nat} {s t : FrameLoopState}
    (hs : FrameStep numImages s t) (hi : FrameInv s) : FrameInv t := by
  obtain ⟨hlf, hlp, hslot, hpf, hnp, hnf, hready⟩ := hi
  cases hs with
  | waitFence hstep hsig =>
    unfold FrameInv
    dsimp only
    refine ⟨hlf, hlp, hslot, hpf, ?_, ?_, ?_⟩
    · intro _ _
      by_cases hp : s.pendingSubmit.getD s.slot false = true
      · rw [hpf _ hp] at hsig
        exact absurd hsig (by decide)
      · simpa using hp
    · intro h2 _
      exact absurd h2 (by decide)
    · intro k hk hg
      exact hready k hk (fun _ => by omega)
  | resetFence hstep =>
    unfold FrameInv
    dsimp only
    refine ⟨?_, hlp, hslot, ?_, ?_, ?_, ?_⟩
    · rw [List.length_set]
      exact hlf
    · intro k hk
      by_cases he : s.slot = k
      · subst he
        exact getD_set_self _ _ _ _ (by rw [hlf]; exact hslot)
      · rw [getD_set_of_ne _ _ _ _ _ he]
        exact hpf k hk
    · intro _ _
      exact hnp (by omega) (by omega)
    · intro _ _
      exact getD_set_self _ _ _ _ (by rw [hlf]; exact hslot)
    · intro k hk hg
      have hne : k ≠ s.slot := fun he => by rcases hg he with h | h <;> omega
      rw [getD_set_of_ne _ _ _ _ _ (Ne.symm hne)]
      exact hready k hk (fun _ => by omega)
  | acquireImage hstep ii hii =>
    unfold FrameInv
    dsimp only
    refine ⟨hlf, hlp, hslot, hpf, ?_, ?_, ?_⟩
    · intro _ _
      exact hnp (by omega) (by omega)
    · intro _ _
      exact hnf (by omega) (by omega)
    · intro k hk hg
      have hne : k ≠ s.slot := fun he => by rcases hg he with h | h <;> omega
      exact hready k hk (fun he => absurd he hne)
  | resetCommandBuffer hstep =>
    unfold FrameInv
    dsimp only
    refine ⟨hlf, hlp, hslot, hpf, ?_, ?_, ?_⟩
    · intro _ _
      exact hnp (by omega) (by omega)
    · intro _ _
      exact hnf (by omega) (by omega)
    · intro k hk hg
      have hne : k ≠ s.slot := fun he => by rcases hg he with h | h <;> omega
      exact hready k hk (fun he => absurd he hne)
  | recordCommands hstep =>
    unfold FrameInv
    dsimp only
    refine ⟨hlf, hlp, hslot, hpf, ?_, ?_, ?_⟩
    · intro _ _
      exact hnp (by omega) (by omega)
    · intro _ _
      exact hnf (by omega) (by omega)
    · intro k hk hg
      have hne : k ≠ s.slot := fun he => by rcases hg he with h | h <;> omega
      exact hready k hk (fun he => absurd he hne)
  | submitToQueue hstep =>
    unfold FrameInv
    dsimp only
    refine ⟨hlf, ?_, hslot, ?_, ?_, ?_, ?_⟩
    · rw [List.length_set]
      exact hlp
    · intro k hk
      by_cases he : s.slot = k
      · subst he
        exact hnf (by omega) (by omega)
      · rw [getD_set_of_ne _ _ _ _ _ he] at hk
        exact hpf k hk
    · intro _ h6
      exact absurd h6 (by decide)
    · intro _ h6
      exact absurd h6 (by decide)
    · intro k hk hg
      by_cases he : k = s.slot
      · subst he
        right
        exact getD_set_self _ _ _ _ (by rw [hlp]; exact hslot)
      · rw [getD_set_of_ne _ _ _ _ _ (Ne.symm he)]
        exact hready k hk (fun hh => absurd hh he)
  | presentImage hstep =>
    unfold FrameInv
    dsimp only
    refine ⟨hlf, hlp, hslot, hpf, ?_, ?_, ?_⟩
    · intro _ h7
      exact absurd h7 (by decide)
    · intro _ h7
      exact absurd h7 (by decide)
    · intro k hk hg
      exact hready k hk (fun _ => by omega)
  | advanceFrame hstep =>
    unfold FrameInv
    dsimp only
    refine ⟨hlf, hlp, Nat.mod_lt _ (by decide), hpf, ?_, ?_, ?_⟩
    · intro h0 _
      exact absurd h0 (by decide)
    · intro h0 _
      exact absurd h0 (by decide)
    · intro k hk hg
      exact hready k hk (fun _ => by omega)
  | gpuComplete k0 hpend =>
    have hk0 : k0 < s.pendingSubmit.length := by
      by_contra hcon
      rw [getD_eq_default_of_le _ _ _ (Nat.le_of_not_lt hcon)] at hpend
      exact absurd hpend (by decide)
    have hk0f : k0 < s.fenceSignaled.length := by
      rw [hlf]
      rw [hlp] at hk0
      exact hk0
    unfold FrameInv
    dsimp only
    refine ⟨?_, ?_, hslot, ?_, ?_, ?_, ?_⟩
    · rw [List.length_set]
      exact hlf
    · rw [List.length_set]
      exact hlp
    · intro j hj
      by_cases he : k0 = j
      · subst he
        rw [getD_set_self _ _ _ _ hk0] at hj
        exact absurd hj (by decide)
      · rw [getD_set_of_ne _ _ _ _ _ he] at hj
        rw [getD_set_of_ne _ _ _ _ _ he]
        exact hpf j hj
    · intro ha hb
      by_cases he : k0 = s.slot
      · subst he
        exact getD_set_self _ _ _ _ hk0
      · rw [getD_set_of_ne _ _ _ _ _ he]
        exact hnp ha hb
    · intro ha hb
      by_cases he : k0 = s.slot
      · exfalso
        rw [he] at hpend
        rw [hnp (by omega) hb] at hpend
        exact absurd hpend (by decide)
      · rw [getD_set_of_ne _ _ _ _ _ he]
        exact hnf ha hb
    · intro j hj hg
      by_cases he : k0 = j
      · subst he
        left
        exact getD_set_self _ _ _ _ hk0f
      · rw [getD_set_of_ne _ _ _ _ _ he, getD_set_of_ne _ _ _ _ _ he]
        exact hready j hj hg

/-- Every reachable state of the frame loop satisfies the invariant. -/
theorem frameInv_of_reachable {numImages : Nat} {s : FrameLoopState}
    (hr : FrameReachable numImages s) : FrameInv s := by
  induction hr with
  | init => exact frameInv_init
  | step hr hs ih => exact frameInv_step hs ih

/-- Claim C2: over any sequence of `drawFrame` calls interleaved with GPU
completions, the command buffer of the current frame slot is reset
(`step = 3`, about to execute `commandBuffer.reset()`) or re-recorded
(`step = 4`) only when no submission armed on `inFlightFences_[currentFrame_]`
is still pending — `drawFrame` first blocks on that fence, resets it, and
only then touches the slot's command buffer, which the subsequent submit arms
on the same fence (the step order is fixed by `FrameStep`). -/
theorem commandBuffer_reset_requires_signaled_fence (numImages : Nat)
    (s : FrameLoopState) (hr : FrameReachable numImages s)
    (hstep : s.step = 3 ∨ s.step = 4) :
    s.pendingSubmit.getD s.slot false = false := by
  have hi := frameInv_of_reachable hr
  rcases hstep with h | h
  · exact hi.2.2.2.2.1 (by omega) (by omega)
  · exact hi.2.2.2.2.1 (by omega) (by omega)

/-- Witness for C2: the state reached by wait, fence reset and image
acquisition in the first frame is about to reset the command buffer and has
no pending submission on slot 0. -/
theorem commandBuffer_reset_requires_signaled_fence_witness :
    (FrameLoopState.mk 0 3 1 [false, true] [false, false]).pendingSubmit.getD
      (FrameLoopState.mk 0 3 1 [false, true] [false, false]).slot false = false :=
  commandBuffer_reset_requires_signaled_fence 3
    (FrameLoopState.mk 0 3 1 [false, true] [false, false])
    (FrameReachable.step
      (FrameReachable.step
        (FrameReachable.step FrameReachable.init
          (FrameStep.waitFence initFrameLoopState rfl rfl))
        (FrameStep.resetFence _ rfl))
      (FrameStep.acquireImage _ rfl 1 (by decide)))
    (Or.inl rfl)

/-- Claim C10: the fences of `initSyncObjects` are created signaled, so the
first wait on a slot completes immediately; and in every reachable state
sitting at a frame boundary (`step = 0`, where the next `drawFrame` begins
with the fence wait), each slot's fence is either signaled or armed by that
slot's most recent still-pending submission, so the wait never blocks on a
fence no submission will signal. -/
theorem inFlightFences_signaled_or_armed (numImages : Nat)
    (s : FrameLoopState) (hr : FrameReachable numImages s) :
    initFrameLoopState.fenceSignaled = List.replicate MAX_FRAMES_IN_FLIGHT true ∧
    (s.step = 0 → ∀ k, k < MAX_FRAMES_IN_FLIGHT →
      s.fenceSignaled.getD k false = true ∨ s.pendingSubmit.getD k false = true) := by
  refine ⟨rfl, fun h0 k hk => ?_⟩
  exact (frameInv_of_reachable hr).2.2.2.2.2.2 k hk (fun _ => Or.inl (by omega))

/-- Witness for C10: in the initial state, slot 0's fence is signaled or has
a pending submission. -/
theorem inFlightFences_signaled_or_armed_witness :
    initFrameLoopState.fenceSignaled.getD 0 false = true ∨
    initFrameLoopState.pendingSubmit.getD 0 false = true :=
  (inFlightFences_signaled_or_armed 2 initFrameLoopState FrameReachable.init).2
    rfl 0 (by decide)

/-- Claim C1: for every swapchain image count, `initSyncObjects` creates as
many render-finished semaphores as swapchain images (while per-slot arrays
have `MAX_FRAMES_IN_FLIGHT` entries), and `drawFrame` selects the
render-finished semaphore for its submit signal and its present wait by the
acquired image index; in particular image counts 2 and 3 give semaphore
counts 2 and 3 against `MAX_FRAMES_IN_FLIGHT = 2`. -/
theorem renderFinishedSemaphores_match_image_count
    (numSwapChainImages currentFrame imageIndex : Nat) :
    (initSyncObjects numSwapChainImages).renderFinishedSemaphores.length =
      numSwapChainImages ∧
    (initSyncObjects numSwapChainImages).imageAvailableSemaphores.length =
      MAX_FRAMES_IN_FLIGHT ∧
    (initSyncObjects numSwapChainImages).inFlightFences.length =
      MAX_FRAMES_IN_FLIGHT ∧
    (initSyncObjects numSwapChainImages).commandBuffers.length =
      MAX_FRAMES_IN_FLIGHT ∧
    drawFrameSubmitSignalSemaphore currentFrame imageIndex =
      SemaphoreRef.renderFinished imageIndex ∧
    drawFramePresentWaitSemaphore currentFrame imageIndex =
      SemaphoreRef.renderFinished imageIndex ∧
    drawFrameSubmitWaitSemaphore currentFrame imageIndex =
      SemaphoreRef.imageAvailable currentFrame ∧
    MAX_FRAMES_IN_FLIGHT = 2 ∧
    (initSyncObjects 2).renderFinishedSemaphores.length = 2 ∧
    (initSyncObjects 3).renderFinishedSemaphores.length = 3 := by
  refine ⟨?_, ?_, ?_, ?_, rfl, rfl, rfl, rfl, ?_, ?_⟩ <;>
    simp [initSyncObjects]

/-- Claim C3 (recording the code's actual behaviour): `drawFrame` reads the
acquired image index identically for every acquisition result code — the
stale-surface results `eSuboptimalKHR` and `eErrorOutOfDateKHR` are treated no
differently from `eSuccess` at the call site — and no operation performed by
`drawFrame` recreates the swapchain (the engine defines no swapchain
recreation at all), so a stale/incompatible surface never triggers the
recreate-and-retry behaviour the specification requires. -/
theorem drawFrame_ignores_stale_surface_results (imageIndex : Nat) :
    drawFrameImageIndex ⟨VkResult.errorOutOfDateKHR, imageIndex⟩ = imageIndex ∧
    drawFrameImageIndex ⟨VkResult.suboptimalKHR, imageIndex⟩ =
      drawFrameImageIndex ⟨VkResult.success, imageIndex⟩ ∧
    drawFrameOps.contains HostOp.recreateSwapChain = false ∧
    drawFrameOps.getLast? = some HostOp.advanceFrame :=
  ⟨rfl, rfl, rfl, rfl⟩

/-- Counterexample for C9: `immediateSubmit` allocates its transient command
buffer from the very pool the per-frame command buffers are allocated from
(`commandPool_` is the engine's only command pool), so the pool is shared,
not dedicated to uploads. -/
theorem immediateSubmit_pool_not_dedicated :
    immediateSubmitPool = frameCommandBuffersPool ∧
    immediateSubmitOps.head? =
      some (UploadOp.allocateCommandBuffer frameCommandBuffersPool) :=
  ⟨rfl, rfl⟩

/-- Claim C9 (amended): `immediateSubmit` performs exactly seven steps in
order — allocate a transient command buffer from the engine's shared command
pool, begin it one-time-submit, run the caller's commands, end it, submit to
the graphics queue, block until the queue is idle, free the buffer — and the
queue-idle wait precedes both the free and the return (the free is the last
operation), making the call synchronous. -/
theorem immediateSubmit_steps :
    immediateSubmitOps.length = 7 ∧
    immediateSubmitOps.indexOf (UploadOp.allocateCommandBuffer immediateSubmitPool) = 0 ∧
    immediateSubmitOps.indexOf UploadOp.beginOneTimeSubmit = 1 ∧
    immediateSubmitOps.indexOf UploadOp.runCallerCommands = 2 ∧
    immediateSubmitOps.indexOf UploadOp.endCommandBuffer = 3 ∧
    immediateSubmitOps.indexOf UploadOp.submitToGraphicsQueue = 4 ∧
    immediateSubmitOps.indexOf UploadOp.graphicsQueueWaitIdle = 5 ∧
    immediateSubmitOps.indexOf (UploadOp.freeCommandBuffer immediateSubmitPool) = 6 ∧
    immediateSubmitOps.getLast? =
      some (UploadOp.freeCommandBuffer immediateSubmitPool) ∧
    (immediateSubmitOps.count UploadOp.graphicsQueueWaitIdle = 1 ∧
     immediateSubmitOps.count (UploadOp.freeCommandBuffer immediateSubmitPool) = 1) := by
  decide

/-- `occursBefore` holds across an append when the first element is in the
left part and the second in the right part. -/
theorem occursBefore_append {α : Type} {xs ys : List α} {a b : α}
    (ha : a ∈ xs) (hb : b ∈ ys) : occursBefore (xs ++ ys) a b :=
  ⟨xs, ys, rfl, ha, hb⟩

/-- `occursBefore` is preserved by prepending a list. -/
theorem occursBefore_append_left {α : Type} (xs : List α) {l : List α}
    {a b : α} (h : occursBefore l a b) : occursBefore (xs ++ l) a b := by
  obtain ⟨l1, l2, heq, ha, hb⟩ := h
  exact ⟨xs ++ l1, l2, by rw [heq, List.append_assoc],
    List.mem_append_right xs ha, hb⟩

/-- Counterexample for C8: in the cleanup of an engine with two swapchain
images and one mesh, the swapchain is destroyed strictly before the mesh
buffers and before the allocator context (each of these operations occurring
exactly once), contradicting the claimed order "all images and buffers, then
the allocator context, then the swapchain". -/
theorem cleanup_swapchain_destroyed_before_allocator :
    (cleanupOps 2 1).count CleanupOp.destroySwapchain = 1 ∧
    (cleanupOps 2 1).count CleanupOp.destroyAllocator = 1 ∧
    (cleanupOps 2 1).count (CleanupOp.destroyMeshVertexBuffer 0) = 1 ∧
    (cleanupOps 2 1).indexOf CleanupOp.destroySwapchain <
      (cleanupOps 2 1).indexOf CleanupOp.destroyAllocator ∧
    (cleanupOps 2 1).indexOf CleanupOp.destroySwapchain <
      (cleanupOps 2 1).indexOf (CleanupOp.destroyMeshVertexBuffer 0) := by
  decide

/-- Claim C8 (amended): in every execution of `cleanup` the destruction steps
occur in the order: wait for device idle, then per-frame sync primitives,
then pipeline and pipeline layout, then descriptor pool and layout, then the
depth and texture images, then the swapchain image views and the swapchain,
then the mesh vertex/index buffers, then the allocator context, then the
device, the surface and the instance; in particular every image and buffer is
destroyed before the allocator context, and the swapchain is destroyed before
the allocator context (with the mesh buffers destroyed after the
swapchain). -/
theorem cleanup_order_amended (numSwapChainImages numMeshes : Nat) :
    (∀ i, i < MAX_FRAMES_IN_FLIGHT →
      occursBefore (cleanupOps numSwapChainImages numMeshes)
        CleanupOp.deviceWaitIdle (CleanupOp.destroyFence i) ∧
      occursBefore (cleanupOps numSwapChainImages numMeshes)
        (CleanupOp.destroyFence i) CleanupOp.destroyPipeline) ∧
    occursBefore (cleanupOps numSwapChainImages numMeshes)
      CleanupOp.destroyPipeline CleanupOp.destroyDescriptorPool ∧
    occursBefore (cleanupOps numSwapChainImages numMeshes)
      CleanupOp.destroyPipelineLayout CleanupOp.destroyDescriptorPool ∧
    occursBefore (cleanupOps numSwapChainImages numMeshes)
      CleanupOp.destroyDescriptorPool CleanupOp.destroyDepthImage ∧
    occursBefore (cleanupOps numSwapChainImages numMeshes)
      CleanupOp.destroyDescriptorSetLayout CleanupOp.destroyTextureImage ∧
    occursBefore (cleanupOps numSwapChainImages numMeshes)
      CleanupOp.destroyDepthImage CleanupOp.destroySwapchain ∧
    occursBefore (cleanupOps numSwapChainImages numMeshes)
      CleanupOp.destroyTextureImage CleanupOp.destroySwapchain ∧
    (∀ i, i < numSwapChainImages →
      occursBefore (cleanupOps numSwapChainImages numMeshes)
        (CleanupOp.destroySwapchainImageView i) CleanupOp.destroySwapchain) ∧
    (∀ j, j < numMeshes →
      occursBefore (cleanupOps numSwapChainImages numMeshes)
        CleanupOp.destroySwapchain (CleanupOp.destroyMeshVertexBuffer j) ∧
      occursBefore (cleanupOps numSwapChainImages numMeshes)
        (CleanupOp.destroyMeshVertexBuffer j) CleanupOp.destroyAllocator ∧
      occursBefore (cleanupOps numSwapChainImages numMeshes)
        (CleanupOp.destroyMeshIndexBuffer j) CleanupOp.destroyAllocator) ∧
    occursBefore (cleanupOps numSwapChainImages numMeshes)
      CleanupOp.destroyDepthImage CleanupOp.destroyAllocator ∧
    occursBefore (cleanupOps numSwapChainImages numMeshes)
      CleanupOp.destroyTextureImage CleanupOp.destroyAllocator ∧
    occursBefore (cleanupOps numSwapChainImages numMeshes)
      CleanupOp.destroySwapchain CleanupOp.destroyAllocator ∧
    occursBefore (cleanupOps numSwapChainImages numMeshes)
      CleanupOp.destroyAllocator CleanupOp.destroyDevice ∧
    occursBefore (cleanupOps numSwapChainImages numMeshes)
      CleanupOp.destroyDevice CleanupOp.destroySurface ∧
    occursBefore (cleanupOps numSwapChainImages numMeshes)
      CleanupOp.destroySurface CleanupOp.destroyInstance := by
  unfold cleanupOps
  refine ⟨?_, ?_, ?_, ?_, ?_, ?_, ?_, ?_, ?_, ?_, ?_, ?_, ?_, ?_, ?_⟩
  · intro i hi
    constructor
    · exact occursBefore_append (by simp)
        (List.mem_append_right _ (List.mem_append_left _
          (List.mem_flatMap.mpr ⟨i, List.mem_range.mpr hi, by simp⟩)))
    · apply occursBefore_append_left
      apply occursBefore_append_left
      exact occursBefore_append
        (List.mem_flatMap.mpr ⟨i, List.mem_range.mpr hi, by simp⟩)
        (List.mem_append_right _ (List.mem_append_left _ (by simp)))
  · apply occursBefore_append_left
    apply occursBefore_append_left
    apply occursBefore_append_left
    apply occursBefore_append_left
    exact occursBefore_append (by simp) (List.mem_append_left _ (by simp))
  · apply occursBefore_append_left
    apply occursBefore_append_left
    apply occursBefore_append_left
    apply occursBefore_append_left
    exact occursBefore_append (by simp) (List.mem_append_left _ (by simp))
  · apply occursBefore_append_left
    apply occursBefore_append_left
    apply occursBefore_append_left
    apply occursBefore_append_left
    apply occursBefore_append_left
    exact occursBefore_append (by simp) (List.mem_append_left _ (by simp))
  · apply occursBefore_append_left
    apply occursBefore_append_left
    apply occursBefore_append_left
    apply occursBefore_append_left
    apply occursBefore_append_left
    exact occursBefore_append (by simp) (List.mem_append_left _ (by simp))
  · apply occursBefore_append_left
    apply occursBefore_append_left
    apply occursBefore_append_left
    apply occursBefore_append_left
    apply occursBefore_append_left
    apply occursBefore_append_left
    exact occursBefore_append (by simp)
      (List.mem_append_right _ (List.mem_append_left _ (by simp)))
  · apply occursBefore_append_left
    apply occursBefore_append_left
    apply occursBefore_append_left
    apply occursBefore_append_left
    apply occursBefore_append_left
    apply occursBefore_append_left
    exact occursBefore_append (by simp)
      (List.mem_append_right _ (List.mem_append_left _ (by simp)))
  · intro i hi
    apply occursBefore_append_left
    apply occursBefore_append_left
    apply occursBefore_append_left
    apply occursBefore_append_left
    apply occursBefore_append_left
    apply occursBefore_append_left
    apply occursBefore_append_left
    exact occursBefore_append
      (List.mem_map.mpr ⟨i, List.mem_range.mpr hi, rfl⟩)
      (List.mem_append_left _ (by simp))
  · intro j hj
    refine ⟨?_, ?_, ?_⟩
    · apply occursBefore_append_left
      apply occursBefore_append_left
      apply occursBefore_append_left
      apply occursBefore_append_left
      apply occursBefore_append_left
      apply occursBefore_append_left
      apply occursBefore_append_left
      apply occursBefore_append_left
      exact occursBefore_append (by simp)
        (List.mem_append_left _
          (List.mem_flatMap.mpr ⟨j, List.mem_range.mpr hj, by simp⟩))
    · apply occursBefore_append_left
      apply occursBefore_append_left
      apply occursBefore_append_left
      apply occursBefore_append_left
      apply occursBefore_append_left
      apply occursBefore_append_left
      apply occursBefore_append_left
      apply occursBefore_append_left
      apply occursBefore_append_left
      exact occursBefore_append
        (List.mem_flatMap.mpr ⟨j, List.mem_range.mpr hj, by simp⟩)
        (List.mem_append_left _ (by simp))
    · apply occursBefore_append_left
      apply occursBefore_append_left
      apply occursBefore_append_left
      apply occursBefore_append_left
      apply occursBefore_append_left
      apply occursBefore_append_left
      apply occursBefore_append_left
      apply occursBefore_append_left
      apply occursBefore_append_left
      exact occursBefore_append
        (List.mem_flatMap.mpr ⟨j, List.mem_range.mpr hj, by simp⟩)
        (List.mem_append_left _ (by simp))
  · apply occursBefore_append_left
    apply occursBefore_append_left
    apply occursBefore_append_left
    apply occursBefore_append_left
    apply occursBefore_append_left
    apply occursBefore_append_left
    exact occursBefore_append (by simp)
      (List.mem_append_right _ (List.mem_append_right _
        (List.mem_append_right _ (List.mem_append_left _ (by simp)))))
  · apply occursBefore_append_left
    apply occursBefore_append_left
    apply occursBefore_append_left
    apply occursBefore_append_left
    apply occursBefore_append_left
    apply occursBefore_append_left
    exact occursBefore_append (by simp)
      (List.mem_append_right _ (List.mem_append_right _
        (List.mem_append_right _ (List.mem_append_left _ (by simp)))))
  · apply occursBefore_append_left
    apply occursBefore_append_left
    apply occursBefore_append_left
    apply occursBefore_append_left
    apply occursBefore_append_left
    apply occursBefore_append_left
    apply occursBefore_append_left
    apply occursBefore_append_left
    exact occursBefore_append (by simp)
      (List.mem_append_right _ (List.mem_append_left _ (by simp)))
  · apply occursBefore_append_left
    apply occursBefore_append_left
    apply occursBefore_append_left
    apply occursBefore_append_left
    apply occursBefore_append_left
    apply occursBefore_append_left
    apply occursBefore_append_left
    apply occursBefore_append_left
    apply occursBefore_append_left
    apply occursBefore_append_left
    exact occursBefore_append (by simp) (List.mem_append_left _ (by simp))
  · apply occursBefore_append_left
    apply occursBefore_append_left
    apply occursBefore_append_left
    apply occursBefore_append_left
    apply occursBefore_append_left
    apply occursBefore_append_left
    apply occursBefore_append_left
    apply occursBefore_append_left
    apply occursBefore_append_left
    apply occursBefore_append_left
    apply occursBefore_append_left
    exact occursBefore_append (by simp) (List.mem_append_left _ (by simp))
  · apply occursBefore_append_left
    apply occursBefore_append_left
    apply occursBefore_append_left
    apply occursBefore_append_left
    apply occursBefore_append_left
    apply occursBefore_append_left
    apply occursBefore_append_left
    apply occursBefore_append_left
    apply occursBefore_append_left
    apply occursBefore_append_left
    apply occursBefore_append_left
    apply occursBefore_append_left
    exact occursBefore_append (by simp) (by simp)

/-- Witness for C8 (amended) at two swapchain images and one mesh: the
device-idle wait precedes fence destruction, the swapchain image views and
the swapchain precede the mesh-buffer destruction, and the mesh buffers
precede the allocator. -/
theorem cleanup_order_amended_witness :
    occursBefore (cleanupOps 2 1) CleanupOp.deviceWaitIdle (CleanupOp.destroyFence 1) ∧
    occursBefore (cleanupOps 2 1) (CleanupOp.destroySwapchainImageView 1)
      CleanupOp.destroySwapchain ∧
    occursBefore (cleanupOps 2 1) CleanupOp.destroySwapchain
      (CleanupOp.destroyMeshVertexBuffer 0) ∧
    occursBefore (cleanupOps 2 1) (CleanupOp.destroyMeshVertexBuffer 0)
      CleanupOp.destroyAllocator :=
  ⟨((cleanup_order_amended 2 1).1 1 (by decide)).1,
   (cleanup_order_amended 2 1).2.2.2.2.2.2.2.1 1 (by decide),
   ((cleanup_order_amended 2 1).2.2.2.2.2.2.2.2.1 0 (by decide)).1,
   ((cleanup_order_amended 2 1).2.2.2.2.2.2.2.2.1 0 (by decide)).2.1⟩

end VulkanEngine
